import Mathlib

/-!
Shallow embedding of the Subject Data Vault (`SubjectsService`) of the
ClearGDPR repository, together with proofs settling the frozen claims.

The service orchestrates four relational tables (`subjects`, `subject_keys`,
`subject_processors`) through knex-style queries.  External collaborators are
modelled at their interface, as the spec prescribes:
  * the cipher adapter: `encryptForStorage`/`decryptFromStorage`, a symmetric
    pair where decryption under the wrong key fails;
  * the key generator `generateClientKey`, modelled as a fresh-counter draw;
  * the JSON codec (`JSON.stringify`/`JSON.parse`), modelled as the identity
    codec on the payload domain;
  * the ledger notifier `recordErasureByProcessor`, which may fail
    independently of local storage, modelled by a success flag plus an
    observable event trace;
  * the relational store's transaction engine, whose commit may fail,
    modelled by a commit-success flag: on any failure inside the transaction
    callback or at commit time the database rolls back to its prior state.
-/

namespace ClearGDPR

/-- Personal-data payloads.  The JSON codec is external; it is modelled as the
identity on this domain, so `JSON.stringify`/`JSON.parse` disappear and the
ciphertext stores the payload directly. -/
abbrev PData := String

/-- Opaque ciphertext produced by the external cipher adapter: the interface
guarantees that decrypting under the key used to encrypt recovers the
plaintext and that any other key fails. -/
structure Cipher where
  data : PData
  key : Nat
  deriving DecidableEq, Repr

/-- `encryptForStorage(plaintext, key)` of the cipher adapter. -/
def encryptForStorage (plaintext : PData) (key : Nat) : Cipher :=
  ⟨plaintext, key⟩

/-- Error taxonomy of `utils/errors` plus the externally-caused failures
(decryption error, ledger notifier rejection, store/commit failure). -/
inductive SErr where
  | NotFound (msg : String)
  | ValidationError (msg : String)
  | Forbidden (msg : String)
  | DecryptError
  | LedgerError
  | StoreError
  deriving DecidableEq, Repr

/-- `decryptFromStorage(ciphertext, key)` of the cipher adapter: fails on a
key mismatch (or on a null/malformed ciphertext, handled at the call site). -/
def decryptFromStorage (c : Cipher) (key : Nat) : Except SErr PData :=
  if c.key = key then .ok c.data else .error .DecryptError

/-- A row of the `subjects` table.  `personal_data` is nullable in the schema;
`objection` is null until `object` first writes it. -/
structure SubjectRow where
  id : String
  personal_data : Option Cipher
  direct_marketing : Bool
  email_communication : Bool
  research : Bool
  objection : Option Bool
  created_at : Nat
  updated_at : Nat
  deriving DecidableEq, Repr

/-- A row of the `subject_keys` table (`subject_id`, `key`). -/
structure KeyRow where
  subject_id : String
  key : Nat
  deriving DecidableEq, Repr

/-- A row of the `subject_processors` table (`subject_id`, `processor_id`). -/
structure AssocRow where
  subject_id : String
  processor_id : String
  deriving DecidableEq, Repr

/-- The relational store, plus the key generator's entropy counter and the
store clock backing `CURRENT_TIMESTAMP`.  Inserts append, so list order is
insertion order, matching the order knex returns unsorted selects in. -/
structure DB where
  subjects : List SubjectRow
  subject_keys : List KeyRow
  subject_processors : List AssocRow
  nextKey : Nat
  now : Nat
  deriving DecidableEq, Repr

/-- `generateClientKey()` of the external key generator: draws a fresh,
never-before-issued key from the entropy counter. -/
def generateClientKey (db : DB) : Nat × DB :=
  (db.nextKey, { db with nextKey := db.nextKey + 1 })

/-- Events observable outside the store, in program order: a ledger
notification attempt for a subject id, a successful transaction commit, a
rollback. -/
inductive Ev where
  | notify (subjectId : String)
  | commit
  | rollback
  deriving DecidableEq, Repr

/-- The join `subjects ⋈ subject_keys on subjects.id = subject_keys.subject_id`
used by `getSubjectData`, as the ordered list of joined row pairs. -/
def subjectKeyJoin (db : DB) : List (SubjectRow × KeyRow) :=
  db.subjects.flatMap fun s =>
    (db.subject_keys.filter fun k => s.id = k.subject_id).map fun k => (s, k)

/-- `getSubjectData(subjectId)`: join subjects with subject_keys, select
`personal_data` and `key` where `subject_id = subjectId`, take the first row
(array destructuring `[data]`), `NotFound` when absent, otherwise decrypt and
parse.  A null `personal_data` makes `decryptFromStorage` fail. -/
def getSubjectData (db : DB) (subjectId : String) : Except SErr PData :=
  match ((subjectKeyJoin db).filter fun r => r.2.subject_id = subjectId).head? with
  | none => .error (.NotFound "Subject not found")
  | some r =>
    match r.1.personal_data with
    | none => .error .DecryptError
    | some c => decryptFromStorage c r.2.key

/-- `_saveSubjectEncryptionKey(trx, subjectId, encryptionKey)`: insert into
`subject_keys`. -/
def _saveSubjectEncryptionKey (db : DB) (subjectId : String) (encryptionKey : Nat) : DB :=
  { db with subject_keys := db.subject_keys ++ [⟨subjectId, encryptionKey⟩] }

/-- `_createNewSubject(personalData, trx, subjectId)`: generate a key, encrypt,
insert the subject row with the three consent flags defaulted to true, then
insert the key row. -/
def _createNewSubject (db : DB) (personalData : PData) (subjectId : String) : DB :=
  let (encryptionKey, db) := generateClientKey db
  let encryptedPersonalData := encryptForStorage personalData encryptionKey
  let db := { db with subjects := db.subjects ++
    [{ id := subjectId
       personal_data := some encryptedPersonalData
       direct_marketing := true
       email_communication := true
       research := true
       objection := none
       created_at := db.now
       updated_at := db.now }] }
  _saveSubjectEncryptionKey db subjectId encryptionKey

/-- `_updateExistingSubject(trx, subjectId, personalData)`: reuse the existing
key row if one exists, otherwise generate and insert a fresh key; re-encrypt
and update the subject row's ciphertext and `updated_at`. -/
def _updateExistingSubject (db : DB) (subjectId : String) (personalData : PData) : DB :=
  let subjectKey := (db.subject_keys.filter fun k => k.subject_id = subjectId).head?
  let (encryptionKey, db) :=
    match subjectKey with
    | some k => (k.key, db)
    | none =>
      let (key, db) := generateClientKey db
      (key, _saveSubjectEncryptionKey db subjectId key)
  let encryptedPersonalData := encryptForStorage personalData encryptionKey
  { db with subjects := db.subjects.map fun s =>
      if s.id = subjectId then
        { s with personal_data := some encryptedPersonalData, updated_at := db.now }
      else s }

/-- `_initializeUserInTransaction(trx, subjectId, personalData)`: look the
subject up and branch to create or update. -/
def _initializeUserInTransaction (db : DB) (subjectId : String) (personalData : PData) : DB :=
  match (db.subjects.filter fun s => s.id = subjectId).head? with
  | none => _createNewSubject db personalData subjectId
  | some _ => _updateExistingSubject db subjectId personalData

/-- `initializeUser(subjectId, personalData)`: the transactional wrapper.  The
callback is total and commit is taken to succeed; a failed commit would roll
the state back and is not the subject of any claim about this operation. -/
def initializeUser (db : DB) (subjectId : String) (personalData : PData) : DB :=
  _initializeUserInTransaction db subjectId personalData

/-- `eraseDataAndRevokeConsent(subjectId)`: inside one transaction, delete the
subject's key row(s), delete its processor associations, then await
`recordErasureByProcessor(subjectId)` — the ledger call is made inside the
transaction callback, before commit.  `delOk` models the store accepting the
two deletes, `notifierOk` the ledger call succeeding, `commitOk` the commit
succeeding; any failure rolls the transaction back.  Returns the outcome, the
committed database, and the event trace in program order. -/
def eraseDataAndRevokeConsent (db : DB) (subjectId : String)
    (delOk notifierOk commitOk : Bool) : Except SErr Unit × DB × List Ev :=
  if !delOk then (.error .StoreError, db, [.rollback])
  else
    let trxDb := { db with
      subject_keys := db.subject_keys.filter fun k => ¬ k.subject_id = subjectId
      subject_processors := db.subject_processors.filter fun a => ¬ a.subject_id = subjectId }
    if !notifierOk then (.error .LedgerError, db, [.notify subjectId, .rollback])
    else if !commitOk then (.error .StoreError, db, [.notify subjectId, .rollback])
    else (.ok (), trxDb, [.notify subjectId, .commit])

/-- `PAGE_SIZE` constant. -/
def PAGE_SIZE : Nat := 10

/-- The three-table join of `listSubjects`: subjects joined to their key rows
and to the processor-association rows of the requesting processor, keeping
only rows with non-null `personal_data` and non-null `key` (the key column is
non-null by construction here, so that filter keeps every joined row). -/
def listingJoin (db : DB) (processorId : String) : List (SubjectRow × KeyRow × AssocRow) :=
  db.subjects.flatMap fun s =>
    (db.subject_keys.filter fun k => s.id = k.subject_id).flatMap fun k =>
      ((db.subject_processors.filter fun a =>
          s.id = a.subject_id ∧ a.processor_id = processorId).map fun a => (s, k, a))
        |>.filter fun r => ¬ r.1.personal_data = none

/-- Insertion of a row into a list sorted ascending by subject id
(`orderBy('id', 'asc')`). -/
def insertByIdAsc (s : SubjectRow) : List SubjectRow → List SubjectRow
  | [] => [s]
  | t :: ts => if s.id ≤ t.id then s :: t :: ts else t :: insertByIdAsc s ts

/-- Sort ascending by subject id. -/
def sortByIdAsc : List SubjectRow → List SubjectRow
  | [] => []
  | s :: ss => insertByIdAsc s (sortByIdAsc ss)

/-- An entry of a listing page: `select('subjects.id', 'subjects.created_at')`. -/
structure ListingEntry where
  id : String
  created_at : Nat
  deriving DecidableEq, Repr

/-- The `{ data, paging: { current, total } }` response shape. -/
structure ListingPage where
  data : List ListingEntry
  current : Int
  total : Nat
  deriving DecidableEq, Repr

/-- `listSubjects(processorId, requestedPage = 1)`: count the joined rows,
compute `totalPages = ceil(count / PAGE_SIZE)` bumped to 1 when 0, validate
the requested page (too big first, then below 1), then return the requested
page of id/created_at rows ordered ascending by id. -/
def listSubjects (db : DB) (processorId : String) (requestedPage : Int) :
    Except SErr ListingPage :=
  let numberOfSubjects := (listingJoin db processorId).length
  let ceilPages := (numberOfSubjects + PAGE_SIZE - 1) / PAGE_SIZE
  let totalPages := if ceilPages = 0 then 1 else ceilPages
  if requestedPage > (totalPages : Int) then
    .error (.ValidationError s!"page number too big, maximum page number is {totalPages}")
  else if requestedPage < 1 then
    .error (.ValidationError "Minimum page number is 1")
  else
    let rows := sortByIdAsc ((listingJoin db processorId).map fun r => r.1)
    let page := (rows.drop (((requestedPage - 1) * (PAGE_SIZE : Int)).toNat)).take PAGE_SIZE
    .ok { data := page.map fun s => ⟨s.id, s.created_at⟩
          current := requestedPage
          total := totalPages }

/-- `listSubjects(processorId)` with the `requestedPage` argument omitted: the
parameter defaults to 1. -/
def listSubjectsNoPage (db : DB) (processorId : String) : Except SErr ListingPage :=
  listSubjects db processorId 1

/-- `restrict(subjectId, directMarketing, emailCommunication, research)`:
update the three flags on every `subjects` row matching the id (the update is
applied even when the affected-row count then triggers an error — the
operation is single-statement, not transactional), then `NotFound` on count 0
and `Forbidden` on count > 1. -/
def restrict (db : DB) (subjectId : String)
    (directMarketing emailCommunication research : Bool) : Except SErr Unit × DB :=
  let updates := (db.subjects.filter fun s => s.id = subjectId).length
  let db := { db with subjects := db.subjects.map fun s =>
    if s.id = subjectId then
      { s with direct_marketing := directMarketing
               email_communication := emailCommunication
               research := research }
    else s }
  if updates = 0 then (.error (.NotFound "Subject not found"), db)
  else if updates > 1 then (.error (.Forbidden "Duplicated subject in the database"), db)
  else (.ok (), db)

/-- The `{ direct_marketing, email_communication, research }` selection. -/
structure Restrictions where
  direct_marketing : Bool
  email_communication : Bool
  research : Bool
  deriving DecidableEq, Repr

/-- `getSubjectRestrictions(subjectId)`: select the three flags from the first
matching `subjects` row; `NotFound` when none matches. -/
def getSubjectRestrictions (db : DB) (subjectId : String) : Except SErr Restrictions :=
  match ((db.subjects.filter fun s => s.id = subjectId).head?) with
  | none => .error (.NotFound "Subject not found")
  | some s => .ok ⟨s.direct_marketing, s.email_communication, s.research⟩

/-- `object(subjectId, objection)`: update the `objection` field on every
matching row, then `NotFound` on count 0 and `Forbidden` on count > 1. -/
def object (db : DB) (subjectId : String) (objection : Bool) : Except SErr Unit × DB :=
  let updates := (db.subjects.filter fun s => s.id = subjectId).length
  let db := { db with subjects := db.subjects.map fun s =>
    if s.id = subjectId then { s with objection := some objection } else s }
  if updates = 0 then (.error (.NotFound "Subject not found"), db)
  else if updates > 1 then (.error (.Forbidden "Duplicated subject in the database"), db)
  else (.ok (), db)

/-- `getSubjectObjection(subjectId)`: select `objection` from the first
matching row; `NotFound` when none matches. -/
def getSubjectObjection (db : DB) (subjectId : String) : Except SErr (Option Bool) :=
  match ((db.subjects.filter fun s => s.id = subjectId).head?) with
  | none => .error (.NotFound "Subject not found")
  | some s => .ok s.objection

deriving instance DecidableEq for Except

/-- Number of ledger-notification attempts for a subject id in a trace. -/
def notifyCount (tr : List Ev) (s : String) : Nat :=
  tr.countP fun e => e = Ev.notify s

/-- A one-subject sample database: subject `s1` with payload `alice` encrypted
under key 0, its key row, and an association with processor `p1`. -/
def sampleRow : SubjectRow :=
  { id := "s1", personal_data := some ⟨"alice", 0⟩, direct_marketing := true
    email_communication := true, research := true, objection := none
    created_at := 0, updated_at := 0 }

/-- Sample database holding `sampleRow`. -/
def sampleDB : DB :=
  { subjects := [sampleRow], subject_keys := [⟨"s1", 0⟩]
    subject_processors := [⟨"s1", "p1"⟩], nextKey := 1, now := 5 }

/-- The empty database. -/
def emptyDB : DB :=
  { subjects := [], subject_keys := [], subject_processors := [], nextKey := 0, now := 0 }

section HelperLemmas

/-- Filtering with `p` after keeping only elements satisfying `¬ p` is empty. -/
theorem filter_neg_filter {α : Type} (p : α → Prop) [DecidablePred p] (l : List α) :
    ((l.filter fun a => ¬ p a).filter fun a => p a) = [] := by
  induction l with
  | nil => rfl
  | cons a as ih => by_cases h : p a <;> simp [List.filter_cons, h, ih]

/-- A `flatMap` of constantly-nil blocks is empty. -/
theorem flatMap_const_nil {α β : Type} (l : List α) :
    (l.flatMap fun _ => ([] : List β)) = [] := by
  induction l with
  | nil => rfl
  | cons a as ih => simp [List.flatMap_cons, ih]

/-- A filter over a list with no satisfying element is empty. -/
theorem filter_eq_nil_of_forall {α : Type} (p : α → Prop) [DecidablePred p] (l : List α)
    (h : ∀ a ∈ l, ¬ p a) : (l.filter fun a => p a) = [] := by
  induction l with
  | nil => rfl
  | cons a as ih =>
    have ha : ¬ p a := h a (by simp)
    simp [List.filter_cons, ha, ih fun b hb => h b (by simp [hb])]

/-- The id-filtered pair block of a subject row whose id is the requested one:
every key row with that subject id survives. -/
theorem filter_pairs_of_eq (s : SubjectRow) (keys : List KeyRow) (S : String)
    (hS : s.id = S) :
    (((keys.filter fun k => s.id = k.subject_id).map fun k => (s, k)).filter
        fun r => r.2.subject_id = S)
      = (keys.filter fun k => k.subject_id = S).map fun k => (s, k) := by
  induction keys with
  | nil => rfl
  | cons k ks ih =>
    by_cases h2 : k.subject_id = S
    · have h1 : s.id = k.subject_id := by rw [hS, h2]
      simp [List.filter_cons, decide_eq_true h1, decide_eq_true h2, ih]
    · have h1 : ¬ s.id = k.subject_id := fun hc => h2 (by rw [← hc, hS])
      simp [List.filter_cons, decide_eq_false h1, decide_eq_false h2, ih]

/-- The id-filtered pair block of a subject row with a different id is empty. -/
theorem filter_pairs_of_ne (s : SubjectRow) (keys : List KeyRow) (S : String)
    (hS : ¬ s.id = S) :
    (((keys.filter fun k => s.id = k.subject_id).map fun k => (s, k)).filter
        fun r => r.2.subject_id = S) = [] := by
  induction keys with
  | nil => rfl
  | cons k ks ih =>
    by_cases h1 : s.id = k.subject_id
    · have h2 : ¬ k.subject_id = S := fun hc => hS (by rw [h1, hc])
      simp [List.filter_cons, decide_eq_true h1, decide_eq_false h2, ih]
    · simp [List.filter_cons, decide_eq_false h1, ih]

/-- The subject/key join filtered to one subject id equals the product of the
id-filtered subject rows and the id-filtered key rows. -/
theorem join_filter (subs : List SubjectRow) (keys : List KeyRow) (S : String) :
    ((subs.flatMap fun s => (keys.filter fun k => s.id = k.subject_id).map fun k => (s, k)).filter
        fun r => r.2.subject_id = S)
      = (subs.filter fun s => s.id = S).flatMap
          fun s => (keys.filter fun k => k.subject_id = S).map fun k => (s, k) := by
  induction subs with
  | nil => rfl
  | cons s ss ih =>
    simp only [List.flatMap_cons, List.filter_append, List.filter_cons, ih]
    by_cases h : s.id = S
    · simp [filter_pairs_of_eq s keys S h, decide_eq_true h]
    · simp [filter_pairs_of_ne s keys S h, decide_eq_false h]

/-- `getSubjectData` in terms of the id-filtered subject and key rows. -/
theorem getSubjectData_eq (db : DB) (S : String) :
    getSubjectData db S =
      match ((db.subjects.filter fun s => s.id = S).flatMap
          fun s => (db.subject_keys.filter fun k => k.subject_id = S).map fun k => (s, k)).head? with
      | none => .error (.NotFound "Subject not found")
      | some r =>
        match r.1.personal_data with
        | none => .error .DecryptError
        | some c => decryptFromStorage c r.2.key := by
  unfold getSubjectData subjectKeyJoin
  rw [join_filter]

/-- Mapping an id-preserving update commutes with filtering by id. -/
theorem filter_map_id_preserving (subs : List SubjectRow) (S : String)
    (f : SubjectRow → SubjectRow) (hf : ∀ s, (f s).id = s.id) :
    ((subs.map f).filter fun s => s.id = S) = (subs.filter fun s => s.id = S).map f := by
  induction subs with
  | nil => rfl
  | cons s ss ih => by_cases h : s.id = S <;> simp [List.filter_cons, hf, h, ih]

/-- The subject row `_createNewSubject` inserts for a fresh subject. -/
def freshRow (db : DB) (S : String) (P : PData) : SubjectRow :=
  { id := S, personal_data := some ⟨P, db.nextKey⟩, direct_marketing := true
    email_communication := true, research := true, objection := none
    created_at := db.now, updated_at := db.now }

/-- `initializeUser` on a subject id with no subject row takes the creation
branch: it appends the new subject row, appends a key row holding the freshly
generated key, and advances the key generator. -/
theorem initializeUser_fresh (db : DB) (S : String) (P : PData)
    (hs : ∀ r ∈ db.subjects, ¬ r.id = S) :
    initializeUser db S P =
      { db with subjects := db.subjects ++ [freshRow db S P]
                subject_keys := db.subject_keys ++ [⟨S, db.nextKey⟩]
                nextKey := db.nextKey + 1 } := by
  have hsub := filter_eq_nil_of_forall (fun s : SubjectRow => s.id = S) db.subjects hs
  unfold initializeUser _initializeUserInTransaction
  rw [hsub]
  simp [_createNewSubject, generateClientKey, encryptForStorage, _saveSubjectEncryptionKey,
    freshRow]

/-- `initializeUser` on a subject id whose subject row and key row both exist
takes the update branch and reuses the stored key: only the matching subject
rows' ciphertext and `updated_at` change; the key table and the key generator
are untouched. -/
theorem initializeUser_update (db : DB) (S : String) (P : PData) (r0 : SubjectRow)
    (kr : KeyRow)
    (hhead : (db.subjects.filter fun s => s.id = S).head? = some r0)
    (hkey : (db.subject_keys.filter fun k => k.subject_id = S).head? = some kr) :
    initializeUser db S P =
      { db with subjects := db.subjects.map fun s =>
          if s.id = S then
            { s with personal_data := some ⟨P, kr.key⟩, updated_at := db.now }
          else s } := by
  unfold initializeUser _initializeUserInTransaction
  rw [hhead]
  unfold _updateExistingSubject
  rw [hkey]
  simp [encryptForStorage]

end HelperLemmas

section Theorems

/-- C1, counterexample: on `sampleDB`, when the transaction fails to commit
(`commitOk = false`) the run is not successful and the state rolls back, yet
one ledger-notification call has already been attempted — the claim demands
zero notification calls whenever the transaction fails to commit, and
notification only after commit. -/
theorem C1_counterexample :
    (eraseDataAndRevokeConsent sampleDB "s1" true true false).1 ≠ .ok () ∧
    (eraseDataAndRevokeConsent sampleDB "s1" true true false).2.1 = sampleDB ∧
    notifyCount (eraseDataAndRevokeConsent sampleDB "s1" true true false).2.2 "s1" = 1 := by
  decide

/-- C1, amended: the ledger notification is attempted exactly once per run in
which the local deletions succeed — inside the transaction, after the
deletions and before commit — whether or not the transaction then commits; a
successful run has trace `[notify, commit]` (exactly one notification, before
the commit); if the store fails the deletions, zero notification calls
occur. -/
theorem C1_erase_notification (db : DB) (s : String) (nOk cOk : Bool) :
    ((eraseDataAndRevokeConsent db s true true true).1 = .ok () ∧
      (eraseDataAndRevokeConsent db s true true true).2.2 = [.notify s, .commit]) ∧
    notifyCount (eraseDataAndRevokeConsent db s true nOk cOk).2.2 s = 1 ∧
    notifyCount (eraseDataAndRevokeConsent db s false nOk cOk).2.2 s = 0 := by
  cases nOk <;> cases cOk <;>
    simp [eraseDataAndRevokeConsent, notifyCount, List.countP_cons, List.countP_nil]

/-- C2, counterexample: on `sampleDB`, when the ledger notifier call fails the
erasure operation does not succeed and the local erasure does not remain
committed — the key row for `s1` is still present afterwards, because the
notifier is awaited inside the transaction and its rejection rolls the
transaction back. -/
theorem C2_counterexample :
    (eraseDataAndRevokeConsent sampleDB "s1" true false true).1 =
      .error SErr.LedgerError ∧
    (eraseDataAndRevokeConsent sampleDB "s1" true false true).2.1.subject_keys.filter
      (fun k => k.subject_id = "s1") = [⟨"s1", 0⟩] := by
  decide

/-- C2, amended: if the ledger notifier call fails, `eraseDataAndRevokeConsent`
fails with the notifier's error and the whole transaction rolls back: the
database — key row and processor associations included — is unchanged. -/
theorem C2_notifier_failure_rolls_back (db : DB) (s : String) (cOk : Bool) :
    eraseDataAndRevokeConsent db s true false cOk =
      (.error SErr.LedgerError, db, [.notify s, .rollback]) := by
  simp [eraseDataAndRevokeConsent]

/-- C3: for a subject id with no prior subject row or key row,
`initializeUser(S, P)` followed by `getSubjectData(S)` returns exactly `P` —
the payload round-trips through encryption under the stored fresh key. -/
theorem C3_initialize_then_get_roundtrip (db : DB) (S : String) (P : PData)
    (hs : ∀ r ∈ db.subjects, ¬ r.id = S)
    (hk : ∀ k ∈ db.subject_keys, ¬ k.subject_id = S) :
    getSubjectData (initializeUser db S P) S = .ok P := by
  have hsub := filter_eq_nil_of_forall (fun s : SubjectRow => s.id = S) db.subjects hs
  have hkey := filter_eq_nil_of_forall (fun k : KeyRow => k.subject_id = S) db.subject_keys hk
  rw [initializeUser_fresh db S P hs, getSubjectData_eq]
  simp [List.filter_append, hsub, hkey, List.filter_cons, freshRow, decryptFromStorage]

/-- C3, witness at a concrete fresh subject. -/
theorem C3_witness :
    getSubjectData (initializeUser emptyDB "s1" "alice-data") "s1" = .ok "alice-data" :=
  C3_initialize_then_get_roundtrip emptyDB "s1" "alice-data"
    (by intro r hr; simp [emptyDB] at hr) (by intro k hk; simp [emptyDB] at hk)

/-- C4: re-initializing an existing subject re-encrypts under the existing key
and generates no new one — the key table is unchanged by the second call, the
key row count for the subject stays 1, the key generator advanced only for
the first call — and `getSubjectData` afterwards returns the second payload. -/
theorem C4_reinitialize_reuses_key (db : DB) (S : String) (P1 P2 : PData)
    (hs : ∀ r ∈ db.subjects, ¬ r.id = S)
    (hk : ∀ k ∈ db.subject_keys, ¬ k.subject_id = S) :
    (initializeUser (initializeUser db S P1) S P2).subject_keys
        = (initializeUser db S P1).subject_keys ∧
    ((initializeUser (initializeUser db S P1) S P2).subject_keys.filter
        fun k => k.subject_id = S).length = 1 ∧
    (initializeUser (initializeUser db S P1) S P2).nextKey = db.nextKey + 1 ∧
    getSubjectData (initializeUser (initializeUser db S P1) S P2) S = .ok P2 := by
  have hsub := filter_eq_nil_of_forall (fun s : SubjectRow => s.id = S) db.subjects hs
  have hkey := filter_eq_nil_of_forall (fun k : KeyRow => k.subject_id = S) db.subject_keys hk
  have h1 := initializeUser_fresh db S P1 hs
  have hhead : ((initializeUser db S P1).subjects.filter fun s => s.id = S).head?
      = some (freshRow db S P1) := by
    rw [h1]
    simp [List.filter_append, hsub, List.filter_cons, freshRow]
  have hkhead : ((initializeUser db S P1).subject_keys.filter fun k => k.subject_id = S).head?
      = some ⟨S, db.nextKey⟩ := by
    rw [h1]
    simp [List.filter_append, hkey, List.filter_cons]
  have h2 := initializeUser_update (initializeUser db S P1) S P2 _ _ hhead hkhead
  refine ⟨?_, ?_, ?_, ?_⟩
  · rw [h2]
  · rw [h2]
    show ((initializeUser db S P1).subject_keys.filter fun k => k.subject_id = S).length = 1
    rw [h1]
    simp [List.filter_append, hkey, List.filter_cons]
  · rw [h2]
    show (initializeUser db S P1).nextKey = db.nextKey + 1
    rw [h1]
  · rw [h2, getSubjectData_eq, filter_map_id_preserving]
    · rw [h1]
      simp [List.filter_append, hsub, hkey, List.filter_cons, freshRow, decryptFromStorage]
    · intro s
      by_cases h : s.id = S <;> simp [h]

/-- C4, witness at a concrete fresh subject re-initialized with a second
payload. -/
theorem C4_witness :
    getSubjectData (initializeUser (initializeUser emptyDB "s1" "v1") "s1" "v2") "s1"
      = .ok "v2" :=
  (C4_reinitialize_reuses_key emptyDB "s1" "v1" "v2"
    (by intro r hr; simp [emptyDB] at hr) (by intro k hk; simp [emptyDB] at hk)).2.2.2

/-- C5: a successful `eraseDataAndRevokeConsent(S)` leaves the `subjects`
table untouched (the subject row, flags included, remains), deletes every key
row and every processor-association row for `S`, and a subsequent
`getSubjectData(S)` fails with `NotFound`. -/
theorem C5_erase_crypto_shreds (db : DB) (S : String) :
    (eraseDataAndRevokeConsent db S true true true).1 = .ok () ∧
    (eraseDataAndRevokeConsent db S true true true).2.1.subjects = db.subjects ∧
    ((eraseDataAndRevokeConsent db S true true true).2.1.subject_keys.filter
        fun k => k.subject_id = S) = [] ∧
    ((eraseDataAndRevokeConsent db S true true true).2.1.subject_processors.filter
        fun a => a.subject_id = S) = [] ∧
    getSubjectData (eraseDataAndRevokeConsent db S true true true).2.1 S
      = .error (.NotFound "Subject not found") := by
  have herase : eraseDataAndRevokeConsent db S true true true
      = (.ok (), { db with
          subject_keys := db.subject_keys.filter fun k => ¬ k.subject_id = S
          subject_processors := db.subject_processors.filter fun a => ¬ a.subject_id = S },
        [.notify S, .commit]) := by
    simp [eraseDataAndRevokeConsent]
  rw [herase]
  refine ⟨rfl, rfl, ?_, ?_, ?_⟩
  · exact filter_neg_filter _ _
  · exact filter_neg_filter _ _
  · rw [getSubjectData_eq]
    rw [show ((({ db with
          subject_keys := db.subject_keys.filter fun k => ¬ k.subject_id = S
          subject_processors := db.subject_processors.filter fun a => ¬ a.subject_id = S
        } : DB).subject_keys.filter fun k => k.subject_id = S)) = []
      from filter_neg_filter _ _]
    simp [flatMap_const_nil]

/-- C7: for a subject id with no subject row, `getSubjectData`,
`getSubjectRestrictions` and `getSubjectObjection` all fail with `NotFound`. -/
theorem C7_never_initialized_all_NotFound (db : DB) (S : String)
    (hs : ∀ r ∈ db.subjects, ¬ r.id = S) :
    getSubjectData db S = .error (.NotFound "Subject not found") ∧
    getSubjectRestrictions db S = .error (.NotFound "Subject not found") ∧
    getSubjectObjection db S = .error (.NotFound "Subject not found") := by
  have hsub := filter_eq_nil_of_forall (fun s : SubjectRow => s.id = S) db.subjects hs
  refine ⟨?_, ?_, ?_⟩
  · rw [getSubjectData_eq, hsub]
    rfl
  · unfold getSubjectRestrictions
    rw [hsub]
    rfl
  · unfold getSubjectObjection
    rw [hsub]
    rfl

/-- C7, witness: a subject id absent from a non-empty database. -/
theorem C7_witness :
    getSubjectData sampleDB "s2" = .error (.NotFound "Subject not found") ∧
    getSubjectRestrictions sampleDB "s2" = .error (.NotFound "Subject not found") ∧
    getSubjectObjection sampleDB "s2" = .error (.NotFound "Subject not found") :=
  C7_never_initialized_all_NotFound sampleDB "s2" (by decide)

/-- C8: `restrict` and `object` fail with `NotFound` when the id-scoped
update affects 0 rows and with `Forbidden` when it affects more than one row;
on success the corresponding getter returns exactly the values written. -/
theorem C8_restrict_object_roundtrip (db : DB) (S : String) (dm ec r b : Bool) :
    ((db.subjects.filter fun s => s.id = S).length = 0 →
      (restrict db S dm ec r).1 = .error (.NotFound "Subject not found") ∧
      (object db S b).1 = .error (.NotFound "Subject not found")) ∧
    ((db.subjects.filter fun s => s.id = S).length > 1 →
      (restrict db S dm ec r).1 = .error (.Forbidden "Duplicated subject in the database") ∧
      (object db S b).1 = .error (.Forbidden "Duplicated subject in the database")) ∧
    ((restrict db S dm ec r).1 = .ok () →
      getSubjectRestrictions (restrict db S dm ec r).2 S = .ok ⟨dm, ec, r⟩) ∧
    ((object db S b).1 = .ok () →
      getSubjectObjection (object db S b).2 S = .ok (some b)) := by
  refine ⟨?_, ?_, ?_, ?_⟩
  · intro h0
    refine ⟨?_, ?_⟩
    · unfold restrict
      dsimp only
      split_ifs <;> first | rfl | (exfalso; omega)
    · unfold object
      dsimp only
      split_ifs <;> first | rfl | (exfalso; omega)
  · intro hgt
    refine ⟨?_, ?_⟩
    · unfold restrict
      dsimp only
      split_ifs <;> first | rfl | (exfalso; omega)
    · unfold object
      dsimp only
      split_ifs <;> first | rfl | (exfalso; omega)
  · intro hok
    unfold restrict at hok ⊢
    dsimp only at hok ⊢
    split_ifs at hok with h1 h2
    have hone : (db.subjects.filter fun s => s.id = S).length = 1 := by omega
    obtain ⟨r0, hr0⟩ := List.length_eq_one.mp hone
    have hmem : r0 ∈ db.subjects.filter fun s => s.id = S := by
      rw [hr0]
      exact List.mem_singleton.mpr rfl
    have hid : r0.id = S := by simpa using (List.mem_filter.mp hmem).2
    unfold getSubjectRestrictions
    rw [if_neg h1, if_neg h2]
    dsimp only
    rw [filter_map_id_preserving, hr0]
    · simp [hid]
    · intro s
      by_cases h : s.id = S <;> simp [h]
  · intro hok
    unfold object at hok ⊢
    dsimp only at hok ⊢
    split_ifs at hok with h1 h2
    have hone : (db.subjects.filter fun s => s.id = S).length = 1 := by omega
    obtain ⟨r0, hr0⟩ := List.length_eq_one.mp hone
    have hmem : r0 ∈ db.subjects.filter fun s => s.id = S := by
      rw [hr0]
      exact List.mem_singleton.mpr rfl
    have hid : r0.id = S := by simpa using (List.mem_filter.mp hmem).2
    unfold getSubjectObjection
    rw [if_neg h1, if_neg h2]
    dsimp only
    rw [filter_map_id_preserving, hr0]
    · simp [hid]
    · intro s
      by_cases h : s.id = S <;> simp [h]

/-- C8, witness: a successful restrict and a successful objection on the
sample subject round-trip through the getters; restrict on an absent id is
`NotFound`. -/
theorem C8_witness :
    getSubjectRestrictions (restrict sampleDB "s1" false true false).2 "s1"
      = .ok ⟨false, true, false⟩ ∧
    getSubjectObjection (object sampleDB "s1" true).2 "s1" = .ok (some true) ∧
    (restrict sampleDB "s2" false true false).1
      = .error (.NotFound "Subject not found") :=
  ⟨(C8_restrict_object_roundtrip sampleDB "s1" false true false true).2.2.1 (by decide),
   (C8_restrict_object_roundtrip sampleDB "s1" false true false true).2.2.2 (by decide),
   ((C8_restrict_object_roundtrip sampleDB "s2" false true false true).1 (by decide)).1⟩

end Theorems

/-- The three consent flags of a subject row, for stating flag preservation. -/
def consentFlags (s : SubjectRow) : Bool × Bool × Bool :=
  (s.direct_marketing, s.email_communication, s.research)

section MoreTheorems

/-- C9: creating a fresh subject inserts its row with all three consent flags
true; every other path leaves consent flags alone — `initializeUser` on an
existing subject, `eraseDataAndRevokeConsent`, and `object` all preserve
every row's consent flags (and `restrict` writes only caller-given values,
never defaults). -/
theorem C9_default_consent_flags (db : DB) (S : String) (P : PData) (b : Bool)
    (hs : ∀ r ∈ db.subjects, ¬ r.id = S) :
    (((initializeUser db S P).subjects.filter fun s => s.id = S) = [freshRow db S P] ∧
      consentFlags (freshRow db S P) = (true, true, true)) ∧
    (∀ db' : DB, (db'.subjects.filter fun s => s.id = S) ≠ [] →
      (initializeUser db' S P).subjects.map consentFlags
        = db'.subjects.map consentFlags) ∧
    (∀ (db' : DB) (dOk nOk cOk : Bool),
      (eraseDataAndRevokeConsent db' S dOk nOk cOk).2.1.subjects = db'.subjects) ∧
    (∀ db' : DB, (object db' S b).2.subjects.map consentFlags
        = db'.subjects.map consentFlags) := by
  have hsub := filter_eq_nil_of_forall (fun s : SubjectRow => s.id = S) db.subjects hs
  refine ⟨⟨?_, rfl⟩, ?_, ?_, ?_⟩
  · rw [initializeUser_fresh db S P hs]
    simp [List.filter_append, hsub, List.filter_cons, freshRow]
  · intro db' hne
    rcases hh : (db'.subjects.filter fun s => s.id = S) with _ | ⟨r0, rest⟩
    · exact absurd hh hne
    · unfold initializeUser _initializeUserInTransaction
      rw [hh]
      show (_updateExistingSubject db' S P).subjects.map consentFlags
        = db'.subjects.map consentFlags
      unfold _updateExistingSubject
      rcases hk : (db'.subject_keys.filter fun k => k.subject_id = S).head? with _ | k0 <;>
        · simp only [hk, _saveSubjectEncryptionKey, generateClientKey]
          rw [List.map_map]
          apply List.map_congr_left
          intro s _
          by_cases h : s.id = S <;> simp [consentFlags, h]
  · intro db' dOk nOk cOk
    cases dOk <;> cases nOk <;> cases cOk <;> simp [eraseDataAndRevokeConsent]
  · intro db'
    unfold object
    dsimp only
    split_ifs <;>
      · rw [List.map_map]
        apply List.map_congr_left
        intro s _
        by_cases h : s.id = S <;> simp [consentFlags, h]

/-- C9, witness: the fresh creation default on the empty database, and flag
preservation when re-initializing the sample subject. -/
theorem C9_witness :
    ((initializeUser emptyDB "s1" "d").subjects.filter fun s => s.id = "s1")
      = [freshRow emptyDB "s1" "d"] ∧
    (initializeUser sampleDB "s1" "d").subjects.map consentFlags
      = sampleDB.subjects.map consentFlags :=
  ⟨((C9_default_consent_flags emptyDB "s1" "d" true
      (by intro r hr; simp [emptyDB] at hr)).1).1,
   (C9_default_consent_flags emptyDB "s1" "d" true
      (by intro r hr; simp [emptyDB] at hr)).2.1 sampleDB (by decide)⟩

/-- C6: `listSubjects` reports a total page count equal to the ceiling of
`matchingCount / PAGE_SIZE` floored at 1 (the first conjunct pins the Nat
expression `(c + PAGE_SIZE - 1) / PAGE_SIZE` down as ceiling division by its
Galois characterization), returns `{ data := [], current := 1, total := 1 }`
for a processor with zero matching subjects, and fails with `ValidationError`
exactly when the requested page exceeds the total page count or is below 1. -/
theorem C6_listSubjects_pagination (db : DB) (pid : String) (page : Int) :
    (∀ m : Nat, ((listingJoin db pid).length + PAGE_SIZE - 1) / PAGE_SIZE ≤ m ↔
        (listingJoin db pid).length ≤ PAGE_SIZE * m) ∧
    ((∃ msg, listSubjects db pid page = .error (.ValidationError msg)) ↔
      (((max 1 (((listingJoin db pid).length + PAGE_SIZE - 1) / PAGE_SIZE) : Nat) : Int) < page
        ∨ page < 1)) ∧
    (∀ pg, listSubjects db pid page = .ok pg →
      pg.current = page ∧
      pg.total = max 1 (((listingJoin db pid).length + PAGE_SIZE - 1) / PAGE_SIZE)) ∧
    ((listingJoin db pid).length = 0 → listSubjects db pid 1 = .ok ⟨[], 1, 1⟩) := by
  have hT : (if ((listingJoin db pid).length + PAGE_SIZE - 1) / PAGE_SIZE = 0 then 1
      else ((listingJoin db pid).length + PAGE_SIZE - 1) / PAGE_SIZE)
      = max 1 (((listingJoin db pid).length + PAGE_SIZE - 1) / PAGE_SIZE) := by
    by_cases h : ((listingJoin db pid).length + PAGE_SIZE - 1) / PAGE_SIZE = 0
    · rw [if_pos h, h]
      decide
    · rw [if_neg h, max_eq_right (Nat.one_le_iff_ne_zero.mpr h)]
  refine ⟨?_, ?_, ?_, ?_⟩
  · intro m
    simp only [PAGE_SIZE]
    omega
  · unfold listSubjects
    dsimp only
    rw [hT]
    constructor
    · intro hmsg
      obtain ⟨msg, hmsg⟩ := hmsg
      split_ifs at hmsg with h1 h2
      · exact Or.inl h1
      · exact Or.inr h2
    · intro h
      split_ifs with h1 h2
      · exact ⟨_, rfl⟩
      · exact ⟨_, rfl⟩
      · rcases h with h | h
        · exact absurd h h1
        · exact absurd h h2
  · intro pg hpg
    unfold listSubjects at hpg
    dsimp only at hpg
    rw [hT] at hpg
    split_ifs at hpg with h1 h2
    injection hpg with hpg
    subst hpg
    exact ⟨rfl, rfl⟩
  · intro h0
    have hjoin : listingJoin db pid = [] := List.length_eq_zero.mp h0
    unfold listSubjects
    rw [hjoin]
    simp [sortByIdAsc, PAGE_SIZE]

/-- C6, witness: the empty database lists one empty page for page 1 and
rejects page 2 with a `ValidationError`. -/
theorem C6_witness :
    listSubjects emptyDB "p1" 1 = .ok ⟨[], 1, 1⟩ ∧
    (∃ msg, listSubjects emptyDB "p1" 2 = .error (.ValidationError msg)) :=
  ⟨(C6_listSubjects_pagination emptyDB "p1" 1).2.2.2 (by decide),
   (C6_listSubjects_pagination emptyDB "p1" 2).2.1.mpr (by decide)⟩

/-- C10: calling `listSubjects` with the page argument omitted is the same
call as `listSubjects` with `requestedPage = 1`, and it always succeeds with
`paging.current = 1`. -/
theorem C10_omitted_page_defaults_to_one (db : DB) (pid : String) :
    listSubjectsNoPage db pid = listSubjects db pid 1 ∧
    ∃ pg, listSubjectsNoPage db pid = .ok pg ∧ pg.current = 1 := by
  refine ⟨rfl, ?_⟩
  unfold listSubjectsNoPage listSubjects
  dsimp only
  generalize hTdef : (if ((listingJoin db pid).length + PAGE_SIZE - 1) / PAGE_SIZE = 0 then 1
      else ((listingJoin db pid).length + PAGE_SIZE - 1) / PAGE_SIZE) = T
  have hge : 1 ≤ T := by
    rw [← hTdef]
    by_cases h : ((listingJoin db pid).length + PAGE_SIZE - 1) / PAGE_SIZE = 0
    · rw [if_pos h]
    · rw [if_neg h]
      exact Nat.one_le_iff_ne_zero.mpr h
  clear hTdef
  rw [if_neg (show ¬((1 : Int) > (T : Int)) by omega),
    if_neg (show ¬((1 : Int) < 1) by omega)]
  exact ⟨_, rfl, rfl⟩

end MoreTheorems

end ClearGDPR
